import Mathlib

/-!
# Verification of `Eth2DaiInstantService`

A shallow embedding of `src/Eth2DaiInstantService.js` (the Eth2Dai instant
exchange plugin) together with theorems checking the natural-language
specification against it.

Conventions of the embedding:
* JavaScript strings become `String`; the helper string operations that the
  source uses (`includes`, `toLowerCase`, `charAt(0).toUpperCase() + slice(1)`,
  `endsWith`) are defined below on `List Char`.
* Token symbols are strings ("ETH", "WETH", "DAI", ...); contract addresses
  are natural numbers supplied by an opaque registry environment `TokenEnv`.
* Human-unit amounts and the slippage fraction are rationals; contract
  integer-unit amounts are integers.
* The external `Currency` module (`./Currency`, not part of the service file)
  is modelled from the spec: conversion to the contract's integer unit is
  per-asset and truncates toward zero.
* The `async` control flow of the service is sequential; each order
  construction is a function from an environment, an exchange oracle, and the
  instance's memoized-quote state to a built order plus the trace of external
  effects in program order.
-/

namespace Eth2Dai

/-! ## JavaScript string helpers -/

/-- Does the first list occur at the head of the second?  (Helper for the
embedding of JavaScript `String.prototype.includes`.) -/
def leadsWith : List Char → List Char → Bool
  | [], _ => true
  | _ :: _, [] => false
  | c :: cs, d :: ds => c == d && leadsWith cs ds

/-- Does the first list occur contiguously anywhere in the second? -/
def occursIn (needle : List Char) : List Char → Bool
  | [] => leadsWith needle []
  | d :: ds => leadsWith needle (d :: ds) || occursIn needle ds

/-- JavaScript `hay.includes(needle)`. -/
def jsIncludes (hay needle : String) : Bool :=
  occursIn needle.toList hay.toList

/-- JavaScript `s.toLowerCase()` (ASCII, which covers every method name the
service builds). -/
def jsToLower (s : String) : String :=
  ⟨s.toList.map Char.toLower⟩

/-- JavaScript `s.endsWith(suf)`. -/
def jsEndsWith (s suf : String) : Bool :=
  leadsWith suf.toList.reverse s.toList.reverse

/-- JavaScript `s.charAt(0).toUpperCase() + s.slice(1)`, as used on the base
method name in `_setMethod`. -/
def jsCapitalize (s : String) : String :=
  match s.toList with
  | [] => ""
  | c :: cs => ⟨Char.toUpper c :: cs⟩

/-! ## External environments -/

/-- The opaque token registry and contract addresses the service reads through
its collaborator services (`token`, `smartContract`).  `decimals` is the
per-asset human-unit ↔ integer-unit conversion exponent of the external
unit-conversion utility. -/
structure TokenEnv where
  address : String → ℕ
  decimals : String → ℕ
  otcAddress : ℕ
  registryAddress : ℕ

/-- The exchange quote oracle (`MAKER_OTC` contract): integer amounts in,
integer quotes out. -/
structure Exchange where
  getBuyAmount : ℕ → ℕ → ℤ → ℕ
  getPayAmount : ℕ → ℕ → ℤ → ℕ

/-- Truncation of a rational toward zero, to the contract's integer unit. -/
def truncToInt (q : ℚ) : ℤ :=
  if q < 0 then -⌊-q⌋ else ⌊q⌋

/-- Modelled from the spec: the external `Currency` module's
`getCurrency(amount, token).toFixed('wei')` (the `./Currency` import is not
part of the service source).  Per the spec's Amount invariant, conversion of a
human-unit amount to the contract's integer unit is asset-specific and rounds
toward zero deterministically. -/
def valueForContract (env : TokenEnv) (amount : ℚ) (symbol : String) : ℤ :=
  truncToInt (amount * (10 : ℚ) ^ env.decimals symbol)

/-- Modelled from the spec: `ETH.wei(x).toFixed('wei')` from the external
`Currency` module converts the already-wei-denominated value `x` to the
contract's integer unit by truncation. -/
def weiToFixed (q : ℚ) : ℤ :=
  truncToInt q

/-! ## Proxy resolution (`_checkProxy`) -/

/-- The value of the `proxy` variable in `sell`/`buy`: either a proxy contract
handle or the literal `false`. -/
inductive ProxyResult where
  | handle (p : ℕ)
  | noProxy
deriving DecidableEq, Repr

/-- JavaScript truthiness of a `ProxyResult`: a proxy contract handle is a
truthy value, the literal `false` is falsy. -/
def ProxyResult.truthy : ProxyResult → Bool
  | .handle _ => true
  | .noProxy => false

/-- `_checkProxy(sellCurrency)`.  `current` is what the proxy service's
`currentProxy()` returns (`none` models `null`/undefined), `ensured` is what
`ensureProxy()` would return.  The second component records whether
`ensureProxy()` (proxy creation) was invoked. -/
def checkProxy (current : Option ℕ) (sellCurrency : String) (ensured : ℕ) :
    ProxyResult × Bool :=
  match current with
  | some p => (.handle p, false)
  | none =>
      if sellCurrency ≠ "ETH" then (.handle ensured, true)
      else (.noProxy, false)

/-! ## Method selection (`_setMethod`) -/

/-- `_setMethod(sellToken, buyToken, method, proxy)`: the chained conditional
dispatch choosing the contract entry-point variant. -/
def setMethod (sellToken buyToken : String) (method : String)
    (proxy : ProxyResult) : String :=
  if buyToken = "ETH" then
    method ++ "BuyEth"
  else if sellToken = "ETH" ∧ proxy.truthy = false then
    "createAnd" ++ jsCapitalize method ++ "PayEth"
  else if sellToken = "ETH" then
    method ++ "PayEth"
  else
    method

/-- The eight method strings `_setMethod` can produce from the two base names
`sellAllAmount` and `buyAllAmount`; they realize the five parameter shapes of
`_buildParams` (the four named `PayEth` shapes plus the default shape). -/
def variantList : List String :=
  ["sellAllAmountBuyEth", "createAndSellAllAmountPayEth", "sellAllAmountPayEth",
   "sellAllAmount", "buyAllAmountBuyEth", "createAndBuyAllAmountPayEth",
   "buyAllAmountPayEth", "buyAllAmount"]

/-- The source's `sell === 'ETH' ? 'WETH' : sell` wrapping of the native
asset symbol. -/
def jsWrap (t : String) : String :=
  if t = "ETH" then "WETH" else t

/-! ## Quotes and the memoized-quote instance state -/

/-- The mutable instance fields `_buyAmount` / `_payAmount` of the service
(`none` models the fields being unset). -/
structure QuoteCache where
  buyAmount : Option ℕ
  payAmount : Option ℕ
deriving DecidableEq, Repr

/-- External effects performed by an order construction, in program order.
`allowanceDone` marks the completion of the allowance-service call; it is
emitted before `submitOrder` exactly when the source `await`s the call. -/
inductive Effect where
  | queryCurrentProxy
  | ensureProxy
  | exchangeGetBuy (buyAddr payAddr : ℕ) (amt : ℤ)
  | exchangeGetPay (payAddr buyAddr : ℕ) (amt : ℤ)
  | allowanceStart (token : String) (proxy : ℕ)
  | allowanceDone (token : String) (proxy : ℕ)
  | submitOrder (method : String)
deriving DecidableEq, Repr

/-- `getBuyAmount(buyToken, payToken, sellAmount)`: queries the exchange with
the fixed amount converted via the *buy* token's unit conversion (as the
source does), stores the result in `_buyAmount`, and returns it.  Result:
(returned value, new instance state, effect trace). -/
def getBuyAmountRun (env : TokenEnv) (ex : Exchange) (st : QuoteCache)
    (buyToken payToken : String) (sellAmount : ℚ) : ℕ × QuoteCache × List Effect :=
  let amt := valueForContract env sellAmount buyToken
  let q := ex.getBuyAmount (env.address buyToken) (env.address payToken) amt
  (q, { st with buyAmount := some q },
   [.exchangeGetBuy (env.address buyToken) (env.address payToken) amt])

/-- `getPayAmount(payToken, buyToken, buyAmount)`; the fixed amount is
converted via the buy token's unit conversion. -/
def getPayAmountRun (env : TokenEnv) (ex : Exchange) (st : QuoteCache)
    (payToken buyToken : String) (buyAmount : ℚ) : ℕ × QuoteCache × List Effect :=
  let amt := valueForContract env buyAmount buyToken
  let q := ex.getPayAmount (env.address payToken) (env.address buyToken) amt
  (q, { st with payAmount := some q },
   [.exchangeGetPay (env.address payToken) (env.address buyToken) amt])

/-- The slippage-protected minimum receive limit computed by `_minBuyAmount`
from a quote `q` (an integer-unit amount): `q × (1 − slippage)` truncated to
the contract's integer unit. -/
def minBuyLimit (q : ℕ) (slippage : ℚ) : ℤ :=
  weiToFixed ((q : ℚ) * (1 - slippage))

/-- The slippage-protected maximum pay limit computed by `_maxPayAmount`:
`q × (1 + slippage)` truncated to the contract's integer unit. -/
def maxPayLimit (q : ℕ) (slippage : ℚ) : ℤ :=
  weiToFixed ((q : ℚ) * (1 + slippage))

/-- `_minBuyAmount(buyToken, payToken, payAmount)`: reuses the memoized
`_buyAmount` when the field is set, otherwise queries via `getBuyAmount`. -/
def minBuyAmountRun (env : TokenEnv) (ex : Exchange) (slippage : ℚ)
    (st : QuoteCache) (buyToken payToken : String) (payAmount : ℚ) :
    ℤ × QuoteCache × List Effect :=
  match st.buyAmount with
  | some q => (minBuyLimit q slippage, st, [])
  | none =>
      let r := getBuyAmountRun env ex st buyToken payToken payAmount
      (minBuyLimit r.1 slippage, r.2.1, r.2.2)

/-- `_maxPayAmount(payToken, buyToken, buyAmount)`: reuses the memoized
`_payAmount` when the field is set, otherwise queries via `getPayAmount`. -/
def maxPayAmountRun (env : TokenEnv) (ex : Exchange) (slippage : ℚ)
    (st : QuoteCache) (payToken buyToken : String) (buyAmount : ℚ) :
    ℤ × QuoteCache × List Effect :=
  match st.payAmount with
  | some q => (maxPayLimit q slippage, st, [])
  | none =>
      let r := getPayAmountRun env ex st payToken buyToken buyAmount
      (maxPayLimit r.1 slippage, r.2.1, r.2.2)

/-! ## Parameter and option builders -/

/-- A positional argument of a contract call: an address or an integer
amount/limit. -/
inductive Param where
  | addr (a : ℕ)
  | intVal (v : ℤ)
deriving DecidableEq, Repr

/-- `_buildParams(sendToken, amount, buyToken, limit, method)`. -/
def buildParams (env : TokenEnv) (sendToken : String) (amount : ℚ)
    (buyToken : String) (limit : ℤ) (method : String) : List Param :=
  let otcAddress := env.otcAddress
  let daiAddress := env.address "DAI"
  let wethAddress := env.address "WETH"
  let orderAmount := valueForContract env amount sendToken
  let registryAddress := env.registryAddress
  if method = "sellAllAmountPayEth" then
    [.addr otcAddress, .addr wethAddress, .addr daiAddress, .intVal limit]
  else if method = "createAndSellAllAmountPayEth" then
    [.addr registryAddress, .addr otcAddress, .addr daiAddress, .intVal limit]
  else if method = "buyAllAmountPayEth" then
    [.addr otcAddress, .addr daiAddress, .intVal orderAmount, .addr wethAddress]
  else if method = "createAndBuyAllAmountPayEth" then
    [.addr registryAddress, .addr otcAddress, .addr daiAddress, .intVal orderAmount]
  else
    [.addr otcAddress, .addr (env.address sendToken), .intVal orderAmount,
     .addr (env.address buyToken), .intVal limit]

/-- The transaction options built by `_buildOptions`: whether the call routes
through the user's DSProxy, and the attached native value (`none` models no
`value` field being set). -/
structure TxOptions where
  dsProxy : Bool
  value : Option ℤ
deriving DecidableEq, Repr

/-- `_buildOptions(amount, sellToken, method, maxPayAmount)`.  `dsProxy` is
set unless the method name contains `create`; the value chain is the source's
first-match conditional. -/
def buildOptions (env : TokenEnv) (amount : ℚ) (sellToken : String)
    (method : String) (maxPayAmount : Option ℤ) : TxOptions :=
  { dsProxy := !(jsIncludes method "create"),
    value :=
      if jsIncludes (jsToLower method) "buyallamountpayeth" then maxPayAmount
      else if sellToken = "ETH" then some (valueForContract env amount "WETH")
      else none }

/-! ## Order construction (`sell` / `buy`) -/

/-- Modelled from the spec: `OtcBuyOrder.build` lives in `src/OtcOrder.js`,
which is not part of the service source.  Per the spec's Order Facade, every
buy order is packaged with a resolved settlement asset, and per its Scenario C
the settlement asset is the wrapped-native asset when the variant name ends in
the buy-native marker (`BuyEth`); otherwise the order settles in the bought
token. -/
def buyOrderSettlement (method buyToken : String) : String :=
  if jsEndsWith method "BuyEth" then "WETH" else buyToken

/-- The order value a construction hands to the external transaction manager,
together with the resulting instance state and the trace of external effects
in program order. -/
structure BuiltOrder where
  proxy : ProxyResult
  method : String
  params : List Param
  options : TxOptions
  settlement : String
  limit : ℤ
  cache : QuoteCache
  trace : List Effect
deriving DecidableEq, Repr

/-- `sell(sell, buy, amount)`: proxy resolution, method selection, slippage
limit, parameter and option building, the allowance precondition (awaited, as
in the source), and submission of the sell order.  The sell order's settlement
currency is `buyToken === 'DAI' ? DAI : WETH`. -/
def sellRun (env : TokenEnv) (ex : Exchange) (slippage : ℚ) (st : QuoteCache)
    (current : Option ℕ) (ensured : ℕ) (sell buy : String) (amount : ℚ) :
    BuiltOrder :=
  let pr := checkProxy current sell ensured
  let proxyEvents : List Effect :=
    if pr.2 then [.queryCurrentProxy, .ensureProxy] else [.queryCurrentProxy]
  let method := setMethod sell buy "sellAllAmount" pr.1
  let sellToken := jsWrap sell
  let buyToken := jsWrap buy
  let mr := minBuyAmountRun env ex slippage st buyToken sellToken amount
  let params := buildParams env sellToken amount buyToken mr.1 method
  let options := buildOptions env amount sell method none
  let allowanceEvents : List Effect :=
    match pr.1 with
    | .handle p => [.allowanceStart sellToken p, .allowanceDone sellToken p]
    | .noProxy => []
  { proxy := pr.1, method := method, params := params, options := options,
    settlement := if buyToken = "DAI" then "DAI" else "WETH",
    limit := mr.1, cache := mr.2.1,
    trace := proxyEvents ++ mr.2.2 ++ allowanceEvents ++ [.submitOrder method] }

/-- `buy(buy, sell, amount)`: symmetric to `sellRun`; the parameters send the
buy token, the limit is the maximum acceptable pay amount, and the buy order's
settlement asset is resolved by the order facade (`buyOrderSettlement`). -/
def buyRun (env : TokenEnv) (ex : Exchange) (slippage : ℚ) (st : QuoteCache)
    (current : Option ℕ) (ensured : ℕ) (buy sell : String) (amount : ℚ) :
    BuiltOrder :=
  let pr := checkProxy current sell ensured
  let proxyEvents : List Effect :=
    if pr.2 then [.queryCurrentProxy, .ensureProxy] else [.queryCurrentProxy]
  let method := setMethod sell buy "buyAllAmount" pr.1
  let buyToken := jsWrap buy
  let sellToken := jsWrap sell
  let mr := maxPayAmountRun env ex slippage st sellToken buyToken amount
  let params := buildParams env buyToken amount sellToken mr.1 method
  let options := buildOptions env amount sell method (some mr.1)
  let allowanceEvents : List Effect :=
    match pr.1 with
    | .handle p => [.allowanceStart sellToken p, .allowanceDone sellToken p]
    | .noProxy => []
  { proxy := pr.1, method := method, params := params, options := options,
    settlement := buyOrderSettlement method buyToken,
    limit := mr.1, cache := mr.2.1,
    trace := proxyEvents ++ mr.2.2 ++ allowanceEvents ++ [.submitOrder method] }

/-- Is there a `submitOrder` event in the list? -/
def containsSubmit : List Effect → Bool
  | [] => false
  | .submitOrder _ :: _ => true
  | _ :: es => containsSubmit es

/-- Does the trace show that an allowance call *completed* before some order
submission, i.e. that the core awaited the allowance requirement? -/
def allowanceAwaitedIn : List Effect → Bool
  | [] => false
  | .allowanceDone _ _ :: es => containsSubmit es
  | _ :: es => allowanceAwaitedIn es

/-! ## Concrete environments for witnesses and counterexamples -/

/-- A concrete registry: distinct addresses for DAI, WETH and MKR, zero
decimals everywhere (the conversion exponent is irrelevant to the address
claims it is used for). -/
def env0 : TokenEnv :=
  { address := fun s =>
      if s = "DAI" then 1 else if s = "WETH" then 2 else if s = "MKR" then 3 else 0,
    decimals := fun _ => 0,
    otcAddress := 10, registryAddress := 11 }

/-- A concrete registry in which two assets have different unit-conversion
exponents (6 versus 18 decimals). -/
def envDec : TokenEnv :=
  { address := fun s => if s = "USDC" then 4 else 5,
    decimals := fun s => if s = "USDC" then 6 else 18,
    otcAddress := 10, registryAddress := 11 }

/-- An exchange oracle answering every quote query with the constant `q`. -/
def exQ (q : ℕ) : Exchange :=
  { getBuyAmount := fun _ _ _ => q, getPayAmount := fun _ _ _ => q }

/-- The instance state with both memo fields unset. -/
def st0 : QuoteCache := ⟨none, none⟩

end Eth2Dai

namespace Eth2Dai

/-- C1: For every combination of sell asset, buy asset, and proxy state, the
method selector returns exactly one of the defined entry-point variants by
first-match evaluation of the decision table: buy-native → base ++ "BuyEth";
else sell-native with falsy proxy → "createAnd" ++ capitalized base ++
"PayEth"; else sell-native → base ++ "PayEth"; else the base name unchanged.
For the two base names the service uses, the result always lies in the list of
defined variants — no combination yields an undefined variant. -/
theorem C1_setMethod_decision_table (sellToken buyToken base : String)
    (proxy : ProxyResult) (hbase : base = "sellAllAmount" ∨ base = "buyAllAmount") :
    (buyToken = "ETH" →
      setMethod sellToken buyToken base proxy = base ++ "BuyEth") ∧
    (buyToken ≠ "ETH" → sellToken = "ETH" → proxy.truthy = false →
      setMethod sellToken buyToken base proxy =
        "createAnd" ++ jsCapitalize base ++ "PayEth") ∧
    (buyToken ≠ "ETH" → sellToken = "ETH" → proxy.truthy = true →
      setMethod sellToken buyToken base proxy = base ++ "PayEth") ∧
    (buyToken ≠ "ETH" → sellToken ≠ "ETH" →
      setMethod sellToken buyToken base proxy = base) ∧
    setMethod sellToken buyToken base proxy ∈ variantList := by
  refine ⟨?_, ?_, ?_, ?_, ?_⟩
  · intro hb; simp [setMethod, hb]
  · intro hb hs hp; simp [setMethod, hb, hs, hp]
  · intro hb hs hp; simp [setMethod, hb, hs, hp]
  · intro hb hs; simp [setMethod, hb, hs]
  · rcases hbase with rfl | rfl <;>
      · unfold setMethod
        split
        · decide
        · split
          · decide
          · split
            · decide
            · decide

/-- Witness for C1: selling native ETH for DAI with no proxy selects the
atomic create-and-execute variant. -/
theorem C1_setMethod_decision_table_witness :
    setMethod "ETH" "DAI" "sellAllAmount" .noProxy = "createAndSellAllAmountPayEth" := by
  have h := C1_setMethod_decision_table "ETH" "DAI" "sellAllAmount" .noProxy (Or.inl rfl)
  have := h.2.1 (by decide) rfl rfl
  rw [this]
  rfl

end Eth2Dai

namespace Eth2Dai

/-! ## Evaluation lemmas for the concrete environments -/

theorem maxPayLimit_eval_1 : maxPayLimit 1 (1/50) = 1 := by
  norm_num [maxPayLimit, weiToFixed, truncToInt]

theorem valueForContract_envDec_USDC : valueForContract envDec 1 "USDC" = 10 ^ 6 := by
  norm_num [valueForContract, envDec, truncToInt]

theorem valueForContract_envDec_WETH : valueForContract envDec 1 "WETH" = 10 ^ 18 := by
  have h : envDec.decimals "WETH" = 18 := rfl
  norm_num [valueForContract, h, truncToInt]

/-! ## C2: slippage bounds -/

/-- C2 (amended): for every integer-unit quote and every tolerance, the
minimum-receive bound is the quote times (1 − tolerance) truncated to the
integer unit and the maximum-pay bound is the quote times (1 + tolerance)
truncated; whenever tolerance > 0 the min bound is strictly below the raw
quote provided the quote is positive, and the max bound strictly above it
provided quote × tolerance ≥ 1 (truncation can otherwise leave a bound equal
to the quote); with tolerance 0 each bound equals the raw quote.  The first
two conjuncts tie the bounds to `_minBuyAmount`/`_maxPayAmount`. -/
theorem C2_slippage_bounds (q : ℕ) (s : ℚ) :
    (∀ env ex st buyT payT amt, st.buyAmount = some q →
      (minBuyAmountRun env ex s st buyT payT amt).1 = minBuyLimit q s) ∧
    (∀ env ex st payT buyT amt, st.payAmount = some q →
      (maxPayAmountRun env ex s st payT buyT amt).1 = maxPayLimit q s) ∧
    minBuyLimit q s = truncToInt ((q : ℚ) * (1 - s)) ∧
    maxPayLimit q s = truncToInt ((q : ℚ) * (1 + s)) ∧
    (0 < s → 0 < q → minBuyLimit q s < q) ∧
    (0 < s → 1 ≤ (q : ℚ) * s → (q : ℤ) < maxPayLimit q s) ∧
    (s = 0 → minBuyLimit q s = q ∧ maxPayLimit q s = q) := by
  refine ⟨?_, ?_, rfl, rfl, ?_, ?_, ?_⟩
  · intro env ex st buyT payT amt h
    simp [minBuyAmountRun, h]
  · intro env ex st payT buyT amt h
    simp [maxPayAmountRun, h]
  · intro hs hq
    unfold minBuyLimit weiToFixed truncToInt
    split
    · have h0 : (0:ℤ) ≤ ⌊-((q:ℚ) * (1 - s))⌋ := by
        apply Int.floor_nonneg.mpr
        linarith
      have hq' : (0:ℤ) < (q:ℤ) := by exact_mod_cast hq
      omega
    · rw [Int.floor_lt]
      have hq' : (0:ℚ) < (q:ℚ) := by exact_mod_cast hq
      push_cast
      nlinarith
  · intro hs h1
    have hq0 : (0:ℚ) ≤ (q:ℚ) := Nat.cast_nonneg q
    unfold maxPayLimit weiToFixed truncToInt
    rw [if_neg (by nlinarith)]
    rw [Int.lt_iff_add_one_le, Int.le_floor]
    push_cast
    nlinarith
  · intro hs
    subst hs
    refine ⟨?_, ?_⟩ <;>
      simp [minBuyLimit, maxPayLimit, weiToFixed, truncToInt,
        not_lt.mpr (Nat.cast_nonneg (α := ℚ) q), Int.floor_natCast]

/-- Counterexample to C2 as stated: with tolerance 1/50 > 0 and a raw quote
of 1 integer unit, the maximum-pay bound equals the raw quote — truncation
erases the slippage margin, so the bound is not strictly greater. -/
theorem C2_strictness_counterexample :
    (0:ℚ) < 1/50 ∧ maxPayLimit 1 (1/50) = 1 ∧ ¬ ((1:ℤ) < maxPayLimit 1 (1/50)) := by
  refine ⟨by norm_num, maxPayLimit_eval_1, ?_⟩
  rw [maxPayLimit_eval_1]
  omega

/-- Witness for C2 at quote 100 and tolerance 1/50. -/
theorem C2_slippage_bounds_witness :
    ((0:ℚ) < 1/50 ∧ (0:ℕ) < 100 ∧ (1:ℚ) ≤ (100:ℚ) * (1/50)) ∧
    minBuyLimit 100 (1/50) < 100 ∧ (100:ℤ) < maxPayLimit 100 (1/50) ∧
    (minBuyAmountRun env0 (exQ 5) (1/50) ⟨some 100, none⟩ "MKR" "WETH" 1).1
      = minBuyLimit 100 (1/50) := by
  refine ⟨⟨by norm_num, by norm_num, by norm_num⟩, ?_, ?_, ?_⟩
  · exact (C2_slippage_bounds 100 (1/50)).2.2.2.2.1 (by norm_num) (by norm_num)
  · exact (C2_slippage_bounds 100 (1/50)).2.2.2.2.2.1 (by norm_num) (by norm_num)
  · exact (C2_slippage_bounds 100 (1/50)).1 env0 (exQ 5) ⟨some 100, none⟩ "MKR" "WETH" 1 rfl

end Eth2Dai

namespace Eth2Dai

/-! ## C3: quote memoization across order constructions -/

/-- C3 (amended): within one sell construction the memoized `_buyAmount` is
reused by the slippage computation without re-querying the exchange; but the
memo field lives on the service instance and is never cleared, so a later,
separate order construction whose starting state still holds the memo also
reuses it (its limit is independent of the current exchange state), and a
construction that does query leaves the quote memoized for all later ones. -/
theorem C3_quote_memoization (env : TokenEnv) (ex ex2 : Exchange) (s : ℚ)
    (st : QuoteCache) (current : Option ℕ) (ensured : ℕ) (sell buy : String)
    (amount : ℚ) (q : ℕ) :
    (st.buyAmount = some q →
      (sellRun env ex s st current ensured sell buy amount).limit = minBuyLimit q s ∧
      (sellRun env ex s st current ensured sell buy amount).limit
        = (sellRun env ex2 s st current ensured sell buy amount).limit ∧
      ∀ a b c, Effect.exchangeGetBuy a b c ∉
        (sellRun env ex s st current ensured sell buy amount).trace) ∧
    (st.buyAmount = none →
      (sellRun env ex s st current ensured sell buy amount).cache.buyAmount
        = some (ex.getBuyAmount (env.address (jsWrap buy)) (env.address (jsWrap sell))
            (valueForContract env amount (jsWrap buy)))) := by
  constructor
  · intro h
    refine ⟨by simp [sellRun, minBuyAmountRun, h], by simp [sellRun, minBuyAmountRun, h], ?_⟩
    intro a b c
    rcases hc : checkProxy current sell ensured with ⟨p1, p2⟩
    simp only [sellRun, hc, minBuyAmountRun, h]
    cases p1 <;> cases p2 <;> simp
  · intro h
    simp [sellRun, minBuyAmountRun, getBuyAmountRun, h]

/-- Counterexample to C3 as stated: a first sell construction (exchange
quoting 100) leaves `_buyAmount = 100` memoized; a later, separate sell
construction against an exchange now quoting 50 reuses the stale memo and
produces the limit 98 = ⌊100 × 0.98⌋, while the same construction started
fresh produces 49 = ⌊50 × 0.98⌋ — the quote *is* reused by a later, separate
order construction. -/
theorem C3_stale_reuse_counterexample :
    (sellRun env0 (exQ 100) (1/50) st0 (some 7) 7 "MKR" "DAI" 1).cache
      = ⟨some 100, none⟩ ∧
    (sellRun env0 (exQ 50) (1/50) ⟨some 100, none⟩ (some 7) 7 "MKR" "DAI" 1).limit = 98 ∧
    (sellRun env0 (exQ 50) (1/50) st0 (some 7) 7 "MKR" "DAI" 1).limit = 49 ∧
    ((98:ℤ) ≠ 49) := by
  refine ⟨?_, ?_, ?_, by omega⟩
  · simp [sellRun, minBuyAmountRun, getBuyAmountRun, st0, exQ]
  · simp [sellRun, minBuyAmountRun]
    norm_num [minBuyLimit, weiToFixed, truncToInt]
  · simp [sellRun, minBuyAmountRun, getBuyAmountRun, st0, exQ]
    norm_num [minBuyLimit, weiToFixed, truncToInt]

/-- Witness for C3: with a memoized quote of 100 and tolerance 1/50, a sell
construction reuses the memo (limit 98, no exchange query), and a fresh
construction leaves the queried quote memoized. -/
theorem C3_quote_memoization_witness :
    (sellRun env0 (exQ 50) (1/50) ⟨some 100, none⟩ (some 7) 7 "MKR" "DAI" 1).limit
      = minBuyLimit 100 (1/50) ∧
    (sellRun env0 (exQ 50) (1/50) st0 (some 7) 7 "MKR" "DAI" 1).cache.buyAmount
      = some ((exQ 50).getBuyAmount (env0.address (jsWrap "DAI")) (env0.address (jsWrap "MKR"))
          (valueForContract env0 1 (jsWrap "DAI"))) := by
  constructor
  · exact ((C3_quote_memoization env0 (exQ 50) (exQ 50) (1/50) ⟨some 100, none⟩
      (some 7) 7 "MKR" "DAI" 1 100).1 rfl).1
  · exact (C3_quote_memoization env0 (exQ 50) (exQ 50) (1/50) st0
      (some 7) 7 "MKR" "DAI" 1 100).2 rfl

/-! ## C4: proxy resolution -/

/-- C4: `_checkProxy` returns the existing proxy when one exists (without
requesting creation); otherwise, for a non-native sell asset it requests
creation and returns the new handle; otherwise it returns `false`.  Creation
is requested exactly when no proxy exists and the sell asset is not native. -/
theorem C4_checkProxy (current : Option ℕ) (sell : String) (ensured : ℕ) :
    (∀ p, current = some p → checkProxy current sell ensured = (.handle p, false)) ∧
    (current = none → sell ≠ "ETH" →
      checkProxy current sell ensured = (.handle ensured, true)) ∧
    (current = none → sell = "ETH" →
      checkProxy current sell ensured = (.noProxy, false)) ∧
    ((checkProxy current sell ensured).2 = true ↔ current = none ∧ sell ≠ "ETH") := by
  refine ⟨?_, ?_, ?_, ?_⟩
  · intro p hp; subst hp; rfl
  · intro h hs; subst h; simp [checkProxy, hs]
  · intro h hs; subst h; simp [checkProxy, hs]
  · cases current with
    | some p => simp [checkProxy]
    | none =>
        by_cases hs : sell = "ETH" <;> simp [checkProxy, hs]

/-- Witness for C4: no current proxy and a non-native sell asset requests
creation and returns the created handle. -/
theorem C4_checkProxy_witness :
    checkProxy none "DAI" 5 = (.handle 5, true) :=
  (C4_checkProxy none "DAI" 5).2.1 rfl (by decide)

end Eth2Dai

namespace Eth2Dai

/-! ## C5: sell native asset, no proxy -/

/-- Helper: the attached-value chain of `_buildOptions` when the method is not
a `buyAllAmountPayEth` variant. -/
theorem buildOptions_value_other (env : TokenEnv) (amount : ℚ)
    (sellToken m : String) (maxPay : Option ℤ)
    (h1 : jsIncludes (jsToLower m) "buyallamountpayeth" = false) :
    (buildOptions env amount sellToken m maxPay).value
      = if sellToken = "ETH" then some (valueForContract env amount "WETH")
        else none := by
  simp [buildOptions, h1]

/-- Helper: `_buildOptions` sets the proxy-routing flag iff the method name
does not contain `create`. -/
theorem buildOptions_dsProxy (env : TokenEnv) (amount : ℚ)
    (sellToken m : String) (maxPay : Option ℤ) :
    (buildOptions env amount sellToken m maxPay).dsProxy
      = !(jsIncludes m "create") := rfl

/-- C5 (amended): for every sell of the native asset for a token with no
existing proxy, the selected variant is `createAndSellAllAmountPayEth`, the
positional parameters are exactly [proxy-registry address, exchange address,
DAI's registry address, integer limit] (the third slot is always DAI's
address — it coincides with the bought token's address only when the bought
token is DAI), and the attached native value is the wrapped-native integer
amount being sold; the call is not routed through a proxy. -/
theorem C5_sell_native_no_proxy (env : TokenEnv) (ex : Exchange) (s : ℚ)
    (st : QuoteCache) (ensured : ℕ) (buy : String) (amount : ℚ)
    (hbuy : buy ≠ "ETH") :
    (sellRun env ex s st none ensured "ETH" buy amount).method
      = "createAndSellAllAmountPayEth" ∧
    (sellRun env ex s st none ensured "ETH" buy amount).params
      = [.addr env.registryAddress, .addr env.otcAddress, .addr (env.address "DAI"),
         .intVal (sellRun env ex s st none ensured "ETH" buy amount).limit] ∧
    (sellRun env ex s st none ensured "ETH" buy amount).options.value
      = some (valueForContract env amount "WETH") ∧
    (sellRun env ex s st none ensured "ETH" buy amount).options.dsProxy = false := by
  have hm : setMethod "ETH" buy "sellAllAmount" (checkProxy none "ETH" ensured).1
      = "createAndSellAllAmountPayEth" := by
    simp [checkProxy, setMethod, hbuy, ProxyResult.truthy]
    rfl
  refine ⟨?_, ?_, ?_, ?_⟩
  · simpa [sellRun] using hm
  · simp only [sellRun, hm]
    rfl
  · simp only [sellRun, hm]
    rw [buildOptions_value_other env amount "ETH" "createAndSellAllAmountPayEth" none rfl]
    simp
  · simp only [sellRun, hm]
    rw [buildOptions_dsProxy]
    rfl

/-- Counterexample to C5 as stated: selling native ETH for the token MKR with
no proxy, the third positional parameter is DAI's address (1 in `env0`), not
the bought token's address (3 in `env0`). -/
theorem C5_dai_slot_counterexample :
    (sellRun env0 (exQ 100) (1/50) st0 none 7 "ETH" "MKR" 1).params
      = [.addr 11, .addr 10, .addr 1, .intVal 98] ∧
    env0.address "MKR" = 3 ∧ env0.address "DAI" = 1 ∧ (3 : ℕ) ≠ 1 := by
  refine ⟨?_, rfl, rfl, by omega⟩
  have hm : setMethod "ETH" "MKR" "sellAllAmount" (checkProxy none "ETH" 7).1
      = "createAndSellAllAmountPayEth" := rfl
  simp only [sellRun, hm]
  have hlim : (minBuyAmountRun env0 (exQ 100) (1/50) st0 (jsWrap "MKR") (jsWrap "ETH") 1).1
      = 98 := by
    simp [minBuyAmountRun, getBuyAmountRun, st0, exQ]
    norm_num [minBuyLimit, weiToFixed, truncToInt]
  rw [hlim]
  rfl

/-- Witness for C5: concrete instance of the amended claim at `env0`,
selling 1 ETH for MKR. -/
theorem C5_sell_native_no_proxy_witness :
    (sellRun env0 (exQ 100) (1/50) st0 none 7 "ETH" "MKR" 1).method
      = "createAndSellAllAmountPayEth" ∧
    (sellRun env0 (exQ 100) (1/50) st0 none 7 "ETH" "MKR" 1).params
      = [.addr env0.registryAddress, .addr env0.otcAddress, .addr (env0.address "DAI"),
         .intVal (sellRun env0 (exQ 100) (1/50) st0 none 7 "ETH" "MKR" 1).limit] ∧
    (sellRun env0 (exQ 100) (1/50) st0 none 7 "ETH" "MKR" 1).options.value
      = some (valueForContract env0 1 "WETH") ∧
    (sellRun env0 (exQ 100) (1/50) st0 none 7 "ETH" "MKR" 1).options.dsProxy = false :=
  C5_sell_native_no_proxy env0 (exQ 100) (1/50) st0 7 "MKR" 1 (by decide)

end Eth2Dai

namespace Eth2Dai

/-! ## C6: transaction options -/

/-- Helper: the attached-value chain of `_buildOptions`, unchanged. -/
theorem buildOptions_value_def (env : TokenEnv) (amount : ℚ)
    (sellToken m : String) (maxPay : Option ℤ) :
    (buildOptions env amount sellToken m maxPay).value
      = if jsIncludes (jsToLower m) "buyallamountpayeth" then maxPay
        else if sellToken = "ETH" then some (valueForContract env amount "WETH")
        else none := rfl

/-- C6: for every variant the method selector can produce, the transaction
options attach the maximum-acceptable-pay value exactly for the two
`buyAllAmountPayEth` variants (the case-insensitive `includes` check matches
both the plain and the `createAnd` variant); otherwise the wrapped-native
integer amount when the sell asset is native; otherwise no value.  The
route-through-proxy flag is set iff the variant is not an atomic
`createAnd...` variant. -/
theorem C6_options_value_and_routing (env : TokenEnv) (amount : ℚ)
    (sellToken m : String) (maxPay : Option ℤ) (hm : m ∈ variantList) :
    ((m = "buyAllAmountPayEth" ∨ m = "createAndBuyAllAmountPayEth") →
      (buildOptions env amount sellToken m maxPay).value = maxPay) ∧
    ((m ≠ "buyAllAmountPayEth" ∧ m ≠ "createAndBuyAllAmountPayEth") → sellToken = "ETH" →
      (buildOptions env amount sellToken m maxPay).value
        = some (valueForContract env amount "WETH")) ∧
    ((m ≠ "buyAllAmountPayEth" ∧ m ≠ "createAndBuyAllAmountPayEth") → sellToken ≠ "ETH" →
      (buildOptions env amount sellToken m maxPay).value = none) ∧
    ((buildOptions env amount sellToken m maxPay).dsProxy = true ↔
      (m ≠ "createAndSellAllAmountPayEth" ∧ m ≠ "createAndBuyAllAmountPayEth")) := by
  simp only [variantList, List.mem_cons, List.not_mem_nil, or_false] at hm
  rcases hm with rfl | rfl | rfl | rfl | rfl | rfl | rfl | rfl
  · exact ⟨fun h => absurd h (by decide),
      fun _ hst => by subst hst; rfl,
      fun _ hne => by rw [buildOptions_value_def, if_neg (by decide), if_neg hne],
      by rw [buildOptions_dsProxy]; decide⟩
  · exact ⟨fun h => absurd h (by decide),
      fun _ hst => by subst hst; rfl,
      fun _ hne => by rw [buildOptions_value_def, if_neg (by decide), if_neg hne],
      by rw [buildOptions_dsProxy]; decide⟩
  · exact ⟨fun h => absurd h (by decide),
      fun _ hst => by subst hst; rfl,
      fun _ hne => by rw [buildOptions_value_def, if_neg (by decide), if_neg hne],
      by rw [buildOptions_dsProxy]; decide⟩
  · exact ⟨fun h => absurd h (by decide),
      fun _ hst => by subst hst; rfl,
      fun _ hne => by rw [buildOptions_value_def, if_neg (by decide), if_neg hne],
      by rw [buildOptions_dsProxy]; decide⟩
  · exact ⟨fun h => absurd h (by decide),
      fun _ hst => by subst hst; rfl,
      fun _ hne => by rw [buildOptions_value_def, if_neg (by decide), if_neg hne],
      by rw [buildOptions_dsProxy]; decide⟩
  · exact ⟨fun _ => rfl,
      fun h _ => absurd rfl h.2,
      fun h _ => absurd rfl h.2,
      by rw [buildOptions_dsProxy]; decide⟩
  · exact ⟨fun _ => rfl,
      fun h _ => absurd rfl h.1,
      fun h _ => absurd rfl h.1,
      by rw [buildOptions_dsProxy]; decide⟩
  · exact ⟨fun h => absurd h (by decide),
      fun _ hst => by subst hst; rfl,
      fun _ hne => by rw [buildOptions_value_def, if_neg (by decide), if_neg hne],
      by rw [buildOptions_dsProxy]; decide⟩

/-- Witness for C6: the `buyAllAmountPayEth` variant attaches the
maximum-acceptable-pay value; the plain token-to-token variant attaches no
value and routes through the proxy. -/
theorem C6_options_witness :
    (buildOptions env0 1 "ETH" "buyAllAmountPayEth" (some 102)).value = some 102 ∧
    (buildOptions env0 1 "DAI" "sellAllAmount" none).value = none ∧
    (buildOptions env0 1 "DAI" "sellAllAmount" none).dsProxy = true := by
  refine ⟨?_, ?_, ?_⟩
  · exact (C6_options_value_and_routing env0 1 "ETH" "buyAllAmountPayEth" (some 102)
      (by decide)).1 (Or.inl rfl)
  · exact (C6_options_value_and_routing env0 1 "DAI" "sellAllAmount" none
      (by decide)).2.2.1 ⟨by decide, by decide⟩ (by decide)
  · exact (C6_options_value_and_routing env0 1 "DAI" "sellAllAmount" none
      (by decide)).2.2.2.mpr ⟨by decide, by decide⟩

end Eth2Dai

namespace Eth2Dai

/-! ## C7: unit conversion around quote queries -/

/-- C7 (amended): for every call to `getBuyAmount` and `getPayAmount`, the
fixed human-unit amount is converted to contract integer units using the
*buy* token's conversion before the exchange is queried — for `getPayAmount`
that is the fixed amount's own asset, but for `getBuyAmount` it is the
counter asset rather than the fixed pay amount's own asset — and the returned
result is the exchange's integer-unit value, unchanged.  Within a sell
construction with no memoized quote the same conversion reaches the
exchange. -/
theorem C7_quote_conversion (env : TokenEnv) (ex : Exchange) (st : QuoteCache)
    (b p : String) (a : ℚ) :
    ((getBuyAmountRun env ex st b p a).2.2
      = [.exchangeGetBuy (env.address b) (env.address p) (valueForContract env a b)]) ∧
    ((getBuyAmountRun env ex st b p a).1
      = ex.getBuyAmount (env.address b) (env.address p) (valueForContract env a b)) ∧
    ((getPayAmountRun env ex st p b a).2.2
      = [.exchangeGetPay (env.address p) (env.address b) (valueForContract env a b)]) ∧
    ((getPayAmountRun env ex st p b a).1
      = ex.getPayAmount (env.address p) (env.address b) (valueForContract env a b)) ∧
    (∀ s current ensured sell buy, st.buyAmount = none →
      Effect.exchangeGetBuy (env.address (jsWrap buy)) (env.address (jsWrap sell))
          (valueForContract env a (jsWrap buy))
        ∈ (sellRun env ex s st current ensured sell buy a).trace) := by
  refine ⟨rfl, rfl, rfl, rfl, ?_⟩
  intro s current ensured sell buy h
  simp [sellRun, minBuyAmountRun, getBuyAmountRun, h]

/-- Counterexample to C7 as stated: querying a buy amount of WETH (18
decimals) for a fixed pay amount of 1 USDC (6 decimals), the integer sent to
the exchange is 10^18 — the buy token's conversion of the fixed amount — and
not 10^6, the conversion of the fixed amount's own asset.  (The returned
value is likewise the exchange's integer, not a human-unit amount.) -/
theorem C7_conversion_counterexample :
    (getBuyAmountRun envDec (exQ 3) st0 "WETH" "USDC" 1).2.2
      = [.exchangeGetBuy 5 4 ((10:ℤ) ^ 18)] ∧
    valueForContract envDec 1 "USDC" = (10:ℤ) ^ 6 ∧
    ((10:ℤ) ^ 18 ≠ (10:ℤ) ^ 6) := by
  refine ⟨?_, valueForContract_envDec_USDC, by norm_num⟩
  have h1 : envDec.address "WETH" = 5 := rfl
  have h2 : envDec.address "USDC" = 4 := rfl
  simp [getBuyAmountRun, h1, h2, valueForContract_envDec_WETH]

/-- Witness for C7: concrete instances of the amended conversion facts. -/
theorem C7_quote_conversion_witness :
    (getBuyAmountRun envDec (exQ 3) st0 "WETH" "USDC" 1).1
      = (exQ 3).getBuyAmount (envDec.address "WETH") (envDec.address "USDC")
          (valueForContract envDec 1 "WETH") ∧
    Effect.exchangeGetBuy (env0.address (jsWrap "DAI")) (env0.address (jsWrap "MKR"))
        (valueForContract env0 1 (jsWrap "DAI"))
      ∈ (sellRun env0 (exQ 3) (1/50) st0 (some 7) 7 "MKR" "DAI" 1).trace :=
  ⟨(C7_quote_conversion envDec (exQ 3) st0 "WETH" "USDC" 1).2.1,
   (C7_quote_conversion env0 (exQ 3) st0 "DAI" "MKR" 1).2.2.2.2
     (1/50) (some 7) 7 "MKR" "DAI" rfl⟩

/-! ## C8: the allowance requirement -/

/-- C8 (amended): in every sell and buy construction, the allowance
requirement is invoked iff a proxy handle exists, it happens before order
submission, and its completion *is* awaited — the completion event precedes
the submission event in the trace (the source `await`s the call). -/
theorem C8_allowance_await (env : TokenEnv) (ex : Exchange) (s : ℚ)
    (st : QuoteCache) (current : Option ℕ) (ensured : ℕ) (sell buy : String)
    (amount : ℚ) :
    (∀ p, (sellRun env ex s st current ensured sell buy amount).proxy = .handle p →
      ∃ pre, (sellRun env ex s st current ensured sell buy amount).trace
        = pre ++ [.allowanceStart (jsWrap sell) p, .allowanceDone (jsWrap sell) p,
            .submitOrder (sellRun env ex s st current ensured sell buy amount).method]) ∧
    ((sellRun env ex s st current ensured sell buy amount).proxy = .noProxy →
      ∀ t p', Effect.allowanceStart t p'
        ∉ (sellRun env ex s st current ensured sell buy amount).trace) ∧
    (∀ p, (buyRun env ex s st current ensured buy sell amount).proxy = .handle p →
      ∃ pre, (buyRun env ex s st current ensured buy sell amount).trace
        = pre ++ [.allowanceStart (jsWrap sell) p, .allowanceDone (jsWrap sell) p,
            .submitOrder (buyRun env ex s st current ensured buy sell amount).method]) ∧
    ((buyRun env ex s st current ensured buy sell amount).proxy = .noProxy →
      ∀ t p', Effect.allowanceStart t p'
        ∉ (buyRun env ex s st current ensured buy sell amount).trace) := by
  rcases hc : checkProxy current sell ensured with ⟨p1, p2⟩
  refine ⟨?_, ?_, ?_, ?_⟩
  · intro p hp
    have hp1 : p1 = .handle p := by simpa [sellRun, hc] using hp
    subst hp1
    refine ⟨(if p2 then [Effect.queryCurrentProxy, Effect.ensureProxy]
        else [Effect.queryCurrentProxy])
      ++ (minBuyAmountRun env ex s st (jsWrap buy) (jsWrap sell) amount).2.2, ?_⟩
    simp [sellRun, hc, List.append_assoc]
  · intro hnp t p'
    have hp1 : p1 = .noProxy := by simpa [sellRun, hc] using hnp
    subst hp1
    rcases hst : st.buyAmount with _ | q <;> cases p2 <;>
      simp [sellRun, hc, minBuyAmountRun, getBuyAmountRun, hst]
  · intro p hp
    have hp1 : p1 = .handle p := by simpa [buyRun, hc] using hp
    subst hp1
    refine ⟨(if p2 then [Effect.queryCurrentProxy, Effect.ensureProxy]
        else [Effect.queryCurrentProxy])
      ++ (maxPayAmountRun env ex s st (jsWrap sell) (jsWrap buy) amount).2.2, ?_⟩
    simp [buyRun, hc, List.append_assoc]
  · intro hnp t p'
    have hp1 : p1 = .noProxy := by simpa [buyRun, hc] using hnp
    subst hp1
    rcases hst : st.payAmount with _ | q <;> cases p2 <;>
      simp [buyRun, hc, maxPayAmountRun, getPayAmountRun, hst]

/-- Counterexample to C8 as stated: in a concrete sell with an existing proxy
the trace shows the allowance call *completing* before the order submission —
the source awaits the allowance requirement, it is not fire-and-forget. -/
theorem C8_await_counterexample :
    (sellRun env0 (exQ 100) (1/50) st0 (some 7) 7 "MKR" "DAI" 1).proxy = .handle 7 ∧
    allowanceAwaitedIn
      (sellRun env0 (exQ 100) (1/50) st0 (some 7) 7 "MKR" "DAI" 1).trace = true :=
  ⟨rfl, rfl⟩

/-- Witness for C8: with an existing proxy, the sell trace ends with the
allowance start/completion followed by the submission. -/
theorem C8_allowance_await_witness :
    ∃ pre, (sellRun env0 (exQ 100) (1/50) st0 (some 7) 7 "MKR" "DAI" 1).trace
      = pre ++ [.allowanceStart (jsWrap "MKR") 7, .allowanceDone (jsWrap "MKR") 7,
          .submitOrder (sellRun env0 (exQ 100) (1/50) st0 (some 7) 7 "MKR" "DAI" 1).method] :=
  (C8_allowance_await env0 (exQ 100) (1/50) st0 (some 7) 7 "MKR" "DAI" 1).1 7 rfl

/-! ## C9: buy orders carry a resolved settlement asset -/

/-- C9: every buy order is packaged with the settlement asset the order
facade resolves from the variant; in particular, for every buy of the native
asset paying with a token, the selected variant is `buyAllAmountBuyEth` (it
ends with the buy-native marker) and the settlement asset is the
wrapped-native asset. -/
theorem C9_buy_native_settlement (env : TokenEnv) (ex : Exchange) (s : ℚ)
    (st : QuoteCache) (current : Option ℕ) (ensured : ℕ) (sell : String)
    (amount : ℚ) (_hsell : sell ≠ "ETH") :
    (∀ buy, (buyRun env ex s st current ensured buy sell amount).settlement
      = buyOrderSettlement (buyRun env ex s st current ensured buy sell amount).method
          (jsWrap buy)) ∧
    (buyRun env ex s st current ensured "ETH" sell amount).method = "buyAllAmountBuyEth" ∧
    jsEndsWith (buyRun env ex s st current ensured "ETH" sell amount).method "BuyEth"
      = true ∧
    (buyRun env ex s st current ensured "ETH" sell amount).settlement = "WETH" :=
  ⟨fun _ => rfl, rfl, rfl, rfl⟩

/-- Witness for C9: buying native ETH with the token MKR. -/
theorem C9_buy_native_settlement_witness :
    (buyRun env0 (exQ 100) (1/50) st0 (some 7) 7 "ETH" "MKR" 1).method
      = "buyAllAmountBuyEth" ∧
    (buyRun env0 (exQ 100) (1/50) st0 (some 7) 7 "ETH" "MKR" 1).settlement = "WETH" :=
  ⟨(C9_buy_native_settlement env0 (exQ 100) (1/50) st0 (some 7) 7 "MKR" 1
      (by decide)).2.1,
   (C9_buy_native_settlement env0 (exQ 100) (1/50) st0 (some 7) 7 "MKR" 1
      (by decide)).2.2.2⟩

/-! ## C10: the PayEth parameter shapes always use DAI's address -/

/-- C10: in all four pay-native parameter shapes the non-native counter-asset
address slot is filled with DAI's registry address regardless of the caller's
send and buy tokens (`s` and `b` below are arbitrary and absent from those
slots); only the default five-argument shape uses the caller's token
addresses. -/
theorem C10_payEth_params_always_DAI (env : TokenEnv) (s b : String)
    (amount : ℚ) (limit : ℤ) :
    (buildParams env s amount b limit "sellAllAmountPayEth"
      = [.addr env.otcAddress, .addr (env.address "WETH"), .addr (env.address "DAI"),
         .intVal limit]) ∧
    (buildParams env s amount b limit "createAndSellAllAmountPayEth"
      = [.addr env.registryAddress, .addr env.otcAddress, .addr (env.address "DAI"),
         .intVal limit]) ∧
    (buildParams env s amount b limit "buyAllAmountPayEth"
      = [.addr env.otcAddress, .addr (env.address "DAI"),
         .intVal (valueForContract env amount s), .addr (env.address "WETH")]) ∧
    (buildParams env s amount b limit "createAndBuyAllAmountPayEth"
      = [.addr env.registryAddress, .addr env.otcAddress, .addr (env.address "DAI"),
         .intVal (valueForContract env amount s)]) ∧
    (∀ m, m ≠ "sellAllAmountPayEth" → m ≠ "createAndSellAllAmountPayEth" →
      m ≠ "buyAllAmountPayEth" → m ≠ "createAndBuyAllAmountPayEth" →
      buildParams env s amount b limit m
        = [.addr env.otcAddress, .addr (env.address s),
           .intVal (valueForContract env amount s), .addr (env.address b),
           .intVal limit]) := by
  refine ⟨rfl, rfl, rfl, rfl, ?_⟩
  intro m h1 h2 h3 h4
  simp [buildParams, h1, h2, h3, h4]

/-- Witness for C10: a pay-native shape with caller tokens MKR/WETH still
carries DAI's address, and the default shape uses the caller's tokens. -/
theorem C10_payEth_params_always_DAI_witness :
    buildParams env0 "MKR" 1 "WETH" 5 "sellAllAmountPayEth"
      = [.addr env0.otcAddress, .addr (env0.address "WETH"), .addr (env0.address "DAI"),
         .intVal 5] ∧
    buildParams env0 "MKR" 1 "WETH" 5 "sellAllAmount"
      = [.addr env0.otcAddress, .addr (env0.address "MKR"),
         .intVal (valueForContract env0 1 "MKR"), .addr (env0.address "WETH"),
         .intVal 5] :=
  ⟨(C10_payEth_params_always_DAI env0 "MKR" "WETH" 1 5).1,
   (C10_payEth_params_always_DAI env0 "MKR" "WETH" 1 5).2.2.2.2 "sellAllAmount"
     (by decide) (by decide) (by decide) (by decide)⟩

end Eth2Dai
